import Mathlib

/-!
Shallow embedding of the Twitch countdown-timer chat bot (`src/bot.js`,
the most complete revision of the repository) together with theorems
checking the natural-language specification against it.

Conventions of the embedding:
* JS numbers holding epoch milliseconds are modelled as `Int`
  (`Date.now()` results and their differences).
* `Math.ceil(a / b)` for a positive integer divisor `b` is modelled by
  `jsCeilDiv a b = (a + b - 1) / b` (Euclidean division, which floors for
  positive divisors; the identity `⌈a/b⌉ = ⌊(a+b-1)/b⌋` holds for all
  integers `a` and positive `b`).
* The JS `Map` of active timers iterates in insertion order with unique
  keys; we model the registry as a `List Timer` in insertion order, and
  the `for … of entries()` loops that delete entries during iteration as
  structural recursions over that list.
* Side effects (`client.say`, `setInterval`, `clearInterval`) are
  modelled as an explicit list of `Output` events produced by each
  operation; `sendMessage` only emits a `say` when connected, exactly as
  the guarded `client.say` call in the source.
* Chat message texts are abstracted to a `Notification` datatype with
  one constructor per `sendMessage` call site in the source; no claim
  depends on the literal prose of a message, only on which notification
  is emitted and with which numeric payload.
-/

namespace TwitchBot

/-- Badge flags carried in `tags.badges` (`tags.badges.broadcaster`,
`tags.badges.moderator`); the badges object itself may be absent
(`null`), hence `Option Badges` at use sites. -/
structure Badges where
  broadcaster : Bool
  moderator : Bool
deriving DecidableEq, Repr

/-- Permission configuration loaded from the environment:
`ALLOWED_USERS` (already trimmed and lower-cased, as in the source) and
`ALLOW_MODS_AND_BROADCASTER`. -/
structure PermissionConfig where
  allowedUsers : List String
  allowModsAndBroadcaster : Bool
deriving DecidableEq, Repr

/-- Sender tags of an inbound message: optional message id, username,
optional badges object. -/
structure Tags where
  id : Option String
  username : String
  badges : Option Badges
deriving DecidableEq, Repr

/-- JS `toLowerCase()`: lower-case every character.  (Defined through
the character list rather than `String.map` so that it reduces by
structural recursion.) -/
def lowerString (s : String) : String := String.mk (s.data.map Char.toLower)

/-- `hasPermission(tags)` from `src/bot.js` lines 34–63: broadcaster
first, then moderator (if enabled), then the allow-list, then the fully
open fallback when both mechanisms are unconfigured. -/
def hasPermission (cfg : PermissionConfig) (tags : Tags) : Bool :=
  let username := lowerString tags.username
  if (match tags.badges with | some b => b.broadcaster | none => false) then
    true
  else if cfg.allowModsAndBroadcaster &&
      (match tags.badges with | some b => b.moderator | none => false) then
    true
  else if cfg.allowedUsers.length > 0 && cfg.allowedUsers.contains username then
    true
  else if cfg.allowedUsers.length == 0 && !cfg.allowModsAndBroadcaster then
    true
  else
    false

/-- `Math.ceil(a / b)` for an integer `a` and positive integer `b`:
`(a + b - 1) / b` with Euclidean (floor-for-positive-divisor) division. -/
def jsCeilDiv (a b : Int) : Int := (a + b - 1) / b

/-- JS `%` (remainder with the sign of the dividend) is `Int.tmod`. -/
def jsMod (a b : Int) : Int := Int.tmod a b

/-- The digit-string capture groups of the timer-start regex, converted
by `parseInt`: base-10 value of a nonempty decimal digit string. -/
def digitsToNat (ds : List Char) : Nat :=
  ds.foldl (fun n c => n * 10 + (c.toNat - 48)) 0

/-- The anchored regex `/^!(\d+)min(\d+)?$/` from `src/bot.js` line 392,
as a deterministic parser over the character list of the message: a `!`,
a nonempty run of digits, the literal `min`, an optional run of digits,
end of input.  Greedy digit runs coincide with the regex because `m` and
the end of input are not digits.  Returns the two capture groups. -/
def timerMatch (msg : List Char) : Option (List Char × Option (List Char)) :=
  match msg with
  | '!' :: rest =>
    let d1 := rest.takeWhile Char.isDigit
    let rest1 := rest.dropWhile Char.isDigit
    if d1.isEmpty then none
    else
      match rest1 with
      | 'm' :: 'i' :: 'n' :: rest2 =>
        let d2 := rest2.takeWhile Char.isDigit
        let rest3 := rest2.dropWhile Char.isDigit
        if rest3.isEmpty then
          some (d1, if d2.isEmpty then none else some d2)
        else none
      | _ => none
  | _ => none

/-- `parseInt(timerMatch[2]) || 1` from `src/bot.js` line 411: an absent
second capture group parses to `NaN` (falsy) and a `"0"` group parses to
`0` (falsy), so both fall back to `1`. -/
def effectiveInterval (g : Option (List Char)) : Nat :=
  match g with
  | none => 1
  | some ds => if digitsToNat ds == 0 then 1 else digitsToNat ds

/-- The remaining-time phrase built by `Timer.tick` (`src/bot.js` lines
123–131): either `"<n> minute(s)"` or `"<n> second(s)"`, with the plural
flag `n !== 1`. -/
inductive TimeDisplay where
  | minutes (n : Int) (plural : Bool)
  | seconds (n : Int) (plural : Bool)
deriving DecidableEq, Repr

/-- Lines 123–131 of `Timer.tick`: `remainingMinutes = Math.ceil
(remaining / 60000)`, `remainingSeconds = Math.ceil((remaining % 60000)
/ 1000)`, minutes branch when `remainingMinutes >= 1`, else seconds. -/
def timeDisplay (remaining : Int) : TimeDisplay :=
  let remainingMinutes := jsCeilDiv remaining 60000
  let remainingSeconds := jsCeilDiv (jsMod remaining 60000) 1000
  if 1 ≤ remainingMinutes then
    TimeDisplay.minutes remainingMinutes (remainingMinutes != 1)
  else
    TimeDisplay.seconds remainingSeconds (remainingSeconds != 1)

/-- One `sendMessage` call site of `src/bot.js`, by payload. -/
inductive Notification where
  | timerComplete (username : String) (minutes : Int)
  | progressUpdate (username : String) (display : TimeDisplay)
  | timerStarted (username : String) (minutes intervalMinutes : Int)
  | pausedMsg (username : String) (remaining : Int)
  | noTimerToPause (username : String)
  | resumedMsg (username : String) (remaining : Int)
  | noTimerToResume (username : String)
  | stoppedCount (username : String) (count : Nat)
  | noTimersToStop (username : String)
  | timerList (username : String) (items : List (Int × Bool))
  | noActiveTimers (username : String)
  | permissionDenied (username : String)
deriving DecidableEq, Repr

/-- The five timer-registry operations the message handler can route a
command to (`startTimer`, `pauseTimer`, `resumeTimer`, `stopTimers`,
`showTimerStatus`). -/
inductive RegOp where
  | startOp
  | pauseOp
  | resumeOp
  | stopOp
  | statusOp
deriving DecidableEq, Repr

/-- Observable side effects: a chat message sent to a channel, the
creation of a periodic interval (`setInterval` in `Timer.start`), its
cancellation (`clearInterval` in `pause`/`cleanup`), or — a pure trace
marker — the invocation of a registry operation by the handler. -/
inductive Output where
  | say (channel : String) (n : Notification)
  | startInterval (id : String)
  | clearInterval (id : String)
  | invoke (op : RegOp)
deriving DecidableEq, Repr

/-- `sendMessage(channel, message)` (`src/bot.js` lines 546–551): only
sends when `isConnected` is true. -/
def sendMessage (isConnected : Bool) (channel : String) (n : Notification) :
    List Output :=
  if isConnected then [Output.say channel n] else []

/-- The chat notifications among a list of outputs (used to state that
an operation announces nothing, or exactly one thing). -/
def saysOf (outs : List Output) : List Output :=
  outs.filter (fun o => match o with | Output.say _ _ => true | _ => false)

/-- The `Timer` class (`src/bot.js` lines 66–186).  `pausedAt` is
`Option Int` (`null` before the first pause and after every resume); JS
arithmetic coerces `null` to `0`, modelled by `Option.getD 0`.  The
`interval` handle itself is not a field: its lifecycle is tracked by the
`startInterval` / `clearInterval` outputs of the operations. -/
structure Timer where
  id : String
  username : String
  totalMinutes : Int
  intervalMinutes : Int
  channel : String
  startTime : Int
  endTime : Int
  lastUpdate : Int
  isPaused : Bool
  pausedAt : Option Int
  totalPausedTime : Int
deriving DecidableEq, Repr

/-- The `Timer` constructor (lines 67–89): fields initialised from the
arguments and the creation instant `now` (`Date.now()`), id
`username_(now)`, followed by `start()` creating the interval. -/
def mkTimer (username : String) (minutes intervalMinutes : Int)
    (channel : String) (now : Int) : Timer :=
  { id := username ++ "_" ++ toString now
    username := username
    totalMinutes := minutes
    intervalMinutes := intervalMinutes
    channel := channel
    startTime := now
    endTime := now + minutes * 60 * 1000
    lastUpdate := now
    isPaused := false
    pausedAt := none
    totalPausedTime := 0 }

/-- `Timer.pause()` (lines 138–147): fails if already paused, else sets
the pause marker to the current instant and cancels the interval. -/
def Timer.pause (t : Timer) (now : Int) : Timer × Bool × List Output :=
  if t.isPaused then (t, false, [])
  else ({ t with isPaused := true, pausedAt := some now }, true,
        [Output.clearInterval t.id])

/-- `Timer.resume()` (lines 149–165): fails if not paused, else adds the
pause duration `now - pausedAt` to `totalPausedTime`, clears the pause
markers and restarts the interval via `start()`. -/
def Timer.resume (t : Timer) (now : Int) : Timer × Bool × List Output :=
  if !t.isPaused then (t, false, [])
  else
    let pauseDuration := now - t.pausedAt.getD 0
    ({ t with totalPausedTime := t.totalPausedTime + pauseDuration,
              isPaused := false, pausedAt := none }, true,
     [Output.startInterval t.id])

/-- The status record returned by `Timer.getStatus()` (lines 167–178). -/
structure TimerStatus where
  remaining : Int
  isPaused : Bool
  total : Int
deriving DecidableEq, Repr

/-- `Timer.getStatus()` (lines 167–178): elapsed time excludes the
cumulative paused total and, while paused, the in-progress pause
duration `now - pausedAt`; remaining milliseconds are converted to
minutes with `Math.ceil`. -/
def Timer.getStatus (t : Timer) (now : Int) : TimerStatus :=
  let elapsed := now - t.startTime - t.totalPausedTime -
    (if t.isPaused then now - t.pausedAt.getD 0 else 0)
  let remaining := t.totalMinutes * 60 * 1000 - elapsed
  { remaining := jsCeilDiv remaining 60000
    isPaused := t.isPaused
    total := t.totalMinutes }

/-- What one invocation of `Timer.tick()` decides to do. -/
inductive TickResult where
  /-- paused: the tick returns immediately. -/
  | pausedSkip
  /-- `remaining <= 0`: completion notification, then `cleanup()`. -/
  | complete
  /-- update due: progress notification with the given display. -/
  | update (d : TimeDisplay)
  /-- neither complete nor update due: nothing happens. -/
  | waiting
deriving DecidableEq, Repr

/-- `Timer.tick()` (lines 101–136): skip if paused; compute `elapsed =
now - startTime - totalPausedTime` and `remaining`; complete when
`remaining <= 0`; else emit a progress update when `now - lastUpdate >=
intervalMinutes*60000 - 500` and set `lastUpdate = now`. -/
def Timer.tick (t : Timer) (now : Int) : Timer × TickResult :=
  if t.isPaused then (t, TickResult.pausedSkip)
  else
    let elapsed := now - t.startTime - t.totalPausedTime
    let remaining := t.totalMinutes * 60 * 1000 - elapsed
    if remaining ≤ 0 then (t, TickResult.complete)
    else if t.intervalMinutes * 60 * 1000 - 500 ≤ now - t.lastUpdate then
      ({ t with lastUpdate := now }, TickResult.update (timeDisplay remaining))
    else (t, TickResult.waiting)

/-- The cleanup loop at the head of `startTimer` (`src/bot.js` lines
455–459): iterate over the registry entries and call `timer.cleanup()`
on every timer owned by `username`.  `cleanup()` (lines 180–185) cancels
the interval and deletes the entry of the timer itself from the `Map`; deleting
the entry under iteration does not disturb the remaining entries, so the
loop is a structural recursion.  No notification is sent. -/
def cleanupOwned (username : String) :
    List Timer → List Timer × List Output
  | [] => ([], [])
  | t :: rest =>
    let (rest2, outs) := cleanupOwned username rest
    if t.username == username then (rest2, Output.clearInterval t.id :: outs)
    else (t :: rest2, outs)

/-- `startTimer(channel, username, minutes, intervalMinutes)` (lines
453–466): clean up the existing timers of the caller, construct and register
a new `Timer` (the constructor starts its interval), then send the
start-confirmation message. -/
def startTimer (conn : Bool) (reg : List Timer) (channel username : String)
    (minutes intervalMinutes : Int) (now : Int) : List Timer × List Output :=
  let (cleaned, couts) := cleanupOwned username reg
  let t := mkTimer username minutes intervalMinutes channel now
  (cleaned ++ [t],
   couts ++ [Output.startInterval t.id] ++
     sendMessage conn channel (Notification.timerStarted username minutes intervalMinutes))

/-- The search loop of `pauseTimer` (lines 472–481): find the first
timer owned by `username` that is not paused, pause it, announce the
frozen remaining minutes, and `break`. -/
def pauseLoop (conn : Bool) (channel username : String) (now : Int) :
    List Timer → List Timer × Bool × List Output
  | [] => ([], false, [])
  | t :: rest =>
    if t.username == username && !t.isPaused then
      let (t2, ok, pouts) := t.pause now
      if ok then
        let status := t2.getStatus now
        (t2 :: rest, true,
         pouts ++ sendMessage conn channel (Notification.pausedMsg username status.remaining))
      else (t2 :: rest, false, pouts)
    else
      let (rest2, found, outs) := pauseLoop conn channel username now rest
      (t :: rest2, found, outs)

/-- `pauseTimer(channel, username)` (lines 469–486). -/
def pauseTimer (conn : Bool) (reg : List Timer) (channel username : String)
    (now : Int) : List Timer × List Output :=
  let (reg2, found, outs) := pauseLoop conn channel username now reg
  (reg2, outs ++ if found then []
                 else sendMessage conn channel (Notification.noTimerToPause username))

/-- The search loop of `resumeTimer` (lines 492–501): find the first
paused timer owned by `username`, resume it, announce the remaining
minutes, and `break`. -/
def resumeLoop (conn : Bool) (channel username : String) (now : Int) :
    List Timer → List Timer × Bool × List Output
  | [] => ([], false, [])
  | t :: rest =>
    if t.username == username && t.isPaused then
      let (t2, ok, routs) := t.resume now
      if ok then
        let status := t2.getStatus now
        (t2 :: rest, true,
         routs ++ sendMessage conn channel (Notification.resumedMsg username status.remaining))
      else (t2 :: rest, false, routs)
    else
      let (rest2, found, outs) := resumeLoop conn channel username now rest
      (t :: rest2, found, outs)

/-- `resumeTimer(channel, username)` (lines 489–506). -/
def resumeTimer (conn : Bool) (reg : List Timer) (channel username : String)
    (now : Int) : List Timer × List Output :=
  let (reg2, found, outs) := resumeLoop conn channel username now reg
  (reg2, outs ++ if found then []
                 else sendMessage conn channel (Notification.noTimerToResume username))

/-- The loop of `stopTimers` (lines 512–517): `cleanup()` every timer
owned by `username`, counting the removals. -/
def stopLoop (username : String) :
    List Timer → List Timer × Nat × List Output
  | [] => ([], 0, [])
  | t :: rest =>
    let (rest2, n, outs) := stopLoop username rest
    if t.username == username then
      (rest2, n + 1, Output.clearInterval t.id :: outs)
    else (t :: rest2, n, outs)

/-- `stopTimers(channel, username)` (lines 509–524). -/
def stopTimers (conn : Bool) (reg : List Timer) (channel username : String) :
    List Timer × List Output :=
  let (reg2, n, outs) := stopLoop username reg
  (reg2, outs ++ (if n > 0 then sendMessage conn channel (Notification.stoppedCount username n)
                  else sendMessage conn channel (Notification.noTimersToStop username)))

/-- The collection loop of `showTimerStatus` (lines 530–536): the
`(remaining, isPaused)` pairs of the timers of the caller, via `getStatus`. -/
def statusItems (username : String) (now : Int) (reg : List Timer) :
    List (Int × Bool) :=
  (reg.filter (fun t => t.username == username)).map
    (fun t => ((t.getStatus now).remaining, (t.getStatus now).isPaused))

/-- `showTimerStatus(channel, username)` (lines 527–543): non-mutating. -/
def showTimerStatus (conn : Bool) (reg : List Timer) (channel username : String)
    (now : Int) : List Output :=
  let items := statusItems username now reg
  if items.length > 0 then
    sendMessage conn channel (Notification.timerList username items)
  else
    sendMessage conn channel (Notification.noActiveTimers username)

/-- Insertion into the deduplication `Set` (`src/bot.js` lines 380–386):
append the id (insertion order; the caller already checked absence),
then if the size exceeds 100 delete the oldest-inserted id, which is the
first value of the insertion-order iteration of the `Set`. -/
def dedupInsert (s : List String) (mid : String) : List String :=
  let s2 := s ++ [mid]
  if s2.length > 100 then s2.tail else s2

/-- The deduplication prologue of the message handler (lines 374–386):
an id already seen causes a silent discard (`false` = not dispatched); a
fresh id is recorded; a message with no usable id bypasses the window. -/
def processDedup (s : List String) (mid : Option String) :
    List String × Bool :=
  match mid with
  | none => (s, true)
  | some i => if s.contains i then (s, false) else (dedupInsert s i, true)

/-- Process-wide connection state (`isConnected`,
`connectionAttempts`, `src/bot.js` lines 29–30). -/
structure ConnState where
  isConnected : Bool
  connectionAttempts : Nat
deriving DecidableEq, Repr

/-- Initial connection state at process start. -/
def connInit : ConnState := { isConnected := false, connectionAttempts := 0 }

/-- `connectToTwitch()` (lines 305–326), state part: no-op when already
connected or when three attempts have been made; otherwise increments
the attempt counter and issues the (asynchronous) connect call. -/
def connectAttempt (s : ConnState) : ConnState :=
  if s.isConnected then s
  else if 3 ≤ s.connectionAttempts then s
  else { s with connectionAttempts := s.connectionAttempts + 1 }

/-- The events that touch the connection state: the guarded attempt, the
`connected` event of the transport (lines 332–354: idempotent guard, then
`isConnected = true`; the attempt counter is not touched), the
`disconnected` event (line 359: `isConnected = false`), the failure
branch of `connect` (line 323), and the disconnect-triggered cooldown
callback (lines 360–363: reset the counter to 0, then reconnect). -/
inductive ConnEvent where
  | attempt
  | connectedEvt
  | disconnectedEvt
  | connectFailure
  | cooldown
deriving DecidableEq, Repr

/-- One step of the connection-state machine. -/
def connStep (s : ConnState) : ConnEvent → ConnState
  | ConnEvent.attempt => connectAttempt s
  | ConnEvent.connectedEvt =>
    if s.isConnected then s else { s with isConnected := true }
  | ConnEvent.disconnectedEvt => { s with isConnected := false }
  | ConnEvent.connectFailure => { s with isConnected := false }
  | ConnEvent.cooldown => connectAttempt { s with connectionAttempts := 0 }

/-- A run of the connection-state machine over a list of events. -/
def connRun (s : ConnState) (es : List ConnEvent) : ConnState :=
  es.foldl connStep s

/-- The mutable process state the message handler reads and writes:
`isConnected`, the deduplication window, the timer registry. -/
structure BotState where
  isConnected : Bool
  processed : List String
  timers : List Timer
deriving DecidableEq, Repr

/-- The `client.on(message)` handler (`src/bot.js` lines 370–450):
discard self-originated messages; apply deduplication; match the start
regex; check permission for start/stop/pause/resume (refusal message for
start and pause/resume only); then route each command branch, every one
guarded by `isConnected`.  Each routing to a registry operation is
traced with an `Output.invoke` marker. -/
def onMessage (cfg : PermissionConfig) (st : BotState) (channel : String)
    (tags : Tags) (message : String) (self : Bool) (now : Int) :
    BotState × List Output :=
  if self then (st, [])
  else
    let (processed2, fresh) := processDedup st.processed tags.id
    if !fresh then (st, [])
    else
      let st1 : BotState := { st with processed := processed2 }
      let username := tags.username
      let lowerMessage := lowerString message
      let tm := timerMatch message.data
      let needsPermission := tm.isSome || lowerMessage == "!stoptimer" ||
        lowerMessage == "!pause" || lowerMessage == "!resume"
      if needsPermission && !hasPermission cfg tags then
        if tm.isSome || lowerMessage == "!pause" || lowerMessage == "!resume" then
          (st1, sendMessage st1.isConnected channel (Notification.permissionDenied username))
        else (st1, [])
      else
        match tm with
        | some (d1, d2) =>
          let minutes : Int := Int.ofNat (digitsToNat d1)
          let interval : Int := Int.ofNat (effectiveInterval d2)
          if st1.isConnected then
            let (timers2, outs) :=
              startTimer st1.isConnected st1.timers channel username minutes interval now
            ({ st1 with timers := timers2 }, Output.invoke RegOp.startOp :: outs)
          else (st1, [])
        | none =>
          if lowerMessage == "!pause" then
            if st1.isConnected then
              let (timers2, outs) := pauseTimer st1.isConnected st1.timers channel username now
              ({ st1 with timers := timers2 }, Output.invoke RegOp.pauseOp :: outs)
            else (st1, [])
          else if lowerMessage == "!resume" then
            if st1.isConnected then
              let (timers2, outs) := resumeTimer st1.isConnected st1.timers channel username now
              ({ st1 with timers := timers2 }, Output.invoke RegOp.resumeOp :: outs)
            else (st1, [])
          else if lowerMessage == "!stoptimer" then
            if st1.isConnected then
              let (timers2, outs) := stopTimers st1.isConnected st1.timers channel username
              ({ st1 with timers := timers2 }, Output.invoke RegOp.stopOp :: outs)
            else (st1, [])
          else if lowerMessage == "!timers" then
            if st1.isConnected then
              (st1, Output.invoke RegOp.statusOp ::
                    showTimerStatus st1.isConnected st1.timers channel username now)
            else (st1, [])
          else (st1, [])

/-- One inbound `message` event from the transport. -/
structure MsgEvent where
  channel : String
  tags : Tags
  message : String
  self : Bool
  now : Int
deriving DecidableEq, Repr

/-- Processing a sequence of inbound messages, accumulating outputs. -/
def onMessages (cfg : PermissionConfig) (st : BotState) :
    List MsgEvent → BotState × List Output
  | [] => (st, [])
  | e :: es =>
    let (st2, outs) := onMessage cfg st e.channel e.tags e.message e.self e.now
    let (st3, outs2) := onMessages cfg st2 es
    (st3, outs ++ outs2)

/-! Helper lemmas about the cleanup loop of `startTimer`. -/

/-- The cleanup loop keeps exactly the timers of other owners. -/
lemma cleanupOwned_fst (owner : String) (reg : List Timer) :
    (cleanupOwned owner reg).1 = reg.filter (fun t => t.username != owner) := by
  induction reg with
  | nil => rfl
  | cons t rest ih =>
    simp only [cleanupOwned, List.filter_cons]
    by_cases h : t.username == owner
    · have hb : (t.username != owner) = false := by simp [bne, h]
      simp [h, hb, ih]
    · have hb : (t.username != owner) = true := by simp [bne, h]
      simp [h, hb, ih]

/-- The cleanup loop sends no chat message. -/
lemma cleanupOwned_no_say (owner : String) (reg : List Timer) :
    saysOf (cleanupOwned owner reg).2 = [] := by
  induction reg with
  | nil => rfl
  | cons t rest ih =>
    simp only [cleanupOwned]
    by_cases h : t.username == owner
    · simp only [h]
      simp [saysOf, List.filter] at ih ⊢
      exact ih
    · simp [h, ih]

/-- The cleanup loop cancels the interval of every removed timer. -/
lemma cleanupOwned_clears (owner : String) (reg : List Timer) :
    ∀ t ∈ reg, t.username = owner →
      Output.clearInterval t.id ∈ (cleanupOwned owner reg).2 := by
  induction reg with
  | nil => intro t ht; exact absurd ht (List.not_mem_nil t)
  | cons u rest ih =>
    intro t ht howner
    simp only [cleanupOwned]
    rcases List.mem_cons.mp ht with rfl | hmem
    · simp [howner]
    · by_cases h : u.username == owner
      · simp [h]
        exact Or.inr (ih t hmem howner)
      · simp [h]
        exact ih t hmem howner

/-- After cleanup, no timer of the cleaned owner remains. -/
lemma filter_owner_of_cleaned (owner : String) (reg : List Timer) :
    ((cleanupOwned owner reg).1.filter (fun t => t.username == owner)) = [] := by
  rw [cleanupOwned_fst, List.filter_filter]
  rw [List.filter_eq_nil_iff]
  intro t ht
  by_cases h : t.username == owner <;> simp [h, bne]

/-- Cleanup of one owner does not disturb the timers of another. -/
lemma filter_other_of_cleaned (owner u : String) (reg : List Timer)
    (hne : u ≠ owner) :
    ((cleanupOwned owner reg).1.filter (fun t => t.username == u))
      = reg.filter (fun t => t.username == u) := by
  rw [cleanupOwned_fst, List.filter_filter]
  apply List.filter_congr
  intro t ht
  by_cases h : t.username == u
  · have : t.username = u := by simpa using h
    have : (t.username != owner) = true := by
      simp [bne, this]
      exact hne
    simp [h, this]
  · simp [h]

/-- Claim C1: `startTimer` enforces at most one timer per owner.  For a
registry satisfying the at-most-one invariant, after `startTimer` the
caller owns exactly the newly constructed timer, every other user keeps
exactly the timers they had, the invariant still holds for every user,
the only chat notification is the single start confirmation (the
removals are not announced), and the periodic activity of every removed
timer is cancelled. -/
theorem startTimer_enforces_single_timer_per_owner
    (conn : Bool) (reg : List Timer) (ch owner : String) (m i now : Int)
    (hinv : ∀ u : String, (reg.filter (fun t => t.username == u)).length ≤ 1) :
    ((startTimer conn reg ch owner m i now).1.filter (fun t => t.username == owner)
        = [mkTimer owner m i ch now]) ∧
    (∀ u : String, u ≠ owner →
      (startTimer conn reg ch owner m i now).1.filter (fun t => t.username == u)
        = reg.filter (fun t => t.username == u)) ∧
    (∀ u : String,
      ((startTimer conn reg ch owner m i now).1.filter
          (fun t => t.username == u)).length ≤ 1) ∧
    (saysOf (startTimer conn reg ch owner m i now).2
        = sendMessage conn ch (Notification.timerStarted owner m i)) ∧
    (∀ t ∈ reg, t.username = owner →
      Output.clearInterval t.id ∈ (startTimer conn reg ch owner m i now).2) := by
  have h1 : (startTimer conn reg ch owner m i now).1.filter
      (fun t => t.username == owner) = [mkTimer owner m i ch now] := by
    simp only [startTimer, List.filter_append]
    rw [filter_owner_of_cleaned]
    simp [mkTimer]
  have h2 : ∀ u : String, u ≠ owner →
      (startTimer conn reg ch owner m i now).1.filter (fun t => t.username == u)
        = reg.filter (fun t => t.username == u) := by
    intro u hu
    simp only [startTimer, List.filter_append]
    rw [filter_other_of_cleaned owner u reg hu]
    have : ((mkTimer owner m i ch now).username == u) = false := by
      simp [mkTimer]
      exact fun hh => absurd hh.symm hu
    simp [this]
  refine ⟨h1, h2, ?_, ?_, ?_⟩
  · intro u
    by_cases hu : u = owner
    · subst hu; rw [h1]; simp
    · rw [h2 u hu]; exact hinv u
  · simp only [startTimer, saysOf, List.filter_append]
    have hc := cleanupOwned_no_say owner reg
    simp only [saysOf] at hc
    rw [hc]
    cases conn <;> simp [sendMessage]
  · intro t ht howner
    simp only [startTimer]
    have := cleanupOwned_clears owner reg t ht howner
    simp [List.mem_append]
    exact Or.inl this

/-- Witness for C1 at a registry holding one timer of the same owner. -/
theorem startTimer_enforces_single_timer_per_owner_witness :
    (∀ u : String,
      (([mkTimer "bob" 5 1 "#c" 0].filter (fun t => t.username == u)).length ≤ 1)) ∧
    (((startTimer true [mkTimer "bob" 5 1 "#c" 0] "#c" "bob" 7 2 1000).1.filter
          (fun t => t.username == "bob") = [mkTimer "bob" 7 2 "#c" 1000]) ∧
     (∀ u : String, u ≠ "bob" →
       (startTimer true [mkTimer "bob" 5 1 "#c" 0] "#c" "bob" 7 2 1000).1.filter
           (fun t => t.username == u)
         = [mkTimer "bob" 5 1 "#c" 0].filter (fun t => t.username == u)) ∧
     (∀ u : String,
       ((startTimer true [mkTimer "bob" 5 1 "#c" 0] "#c" "bob" 7 2 1000).1.filter
           (fun t => t.username == u)).length ≤ 1) ∧
     (saysOf (startTimer true [mkTimer "bob" 5 1 "#c" 0] "#c" "bob" 7 2 1000).2
         = sendMessage true "#c" (Notification.timerStarted "bob" 7 2)) ∧
     (∀ t ∈ [mkTimer "bob" 5 1 "#c" 0], t.username = "bob" →
       Output.clearInterval t.id
         ∈ (startTimer true [mkTimer "bob" 5 1 "#c" 0] "#c" "bob" 7 2 1000).2)) :=
  ⟨fun u => le_trans (List.length_filter_le _ _) (by simp),
   startTimer_enforces_single_timer_per_owner true [mkTimer "bob" 5 1 "#c" 0]
     "#c" "bob" 7 2 1000
     (fun u => le_trans (List.length_filter_le _ _) (by simp))⟩

/-- Claim C2: for a running timer, `pause` at instant `tp` followed by
`resume` at instant `tp + p` (after an arbitrary pause-wall-duration
`p`) leaves the status — in particular the computed remaining time —
exactly what it was at the pause instant, because `resume` adds exactly
`now - pauseStart` to the cumulative paused total. -/
theorem pause_resume_preserves_remaining (t : Timer) (tp p : Int)
    (h : t.isPaused = false) :
    ((((t.pause tp).1).resume (tp + p)).1).getStatus (tp + p) = t.getStatus tp := by
  simp only [Timer.pause, Timer.resume, Timer.getStatus, h]
  simp only [if_neg (by simp : ¬(false = true))]
  simp [TimerStatus.mk.injEq]
  congr 1
  ring

/-- Witness for C2: a concrete 10-minute timer paused at 5 s and resumed
7 s later has the same status as at the pause instant. -/
theorem pause_resume_preserves_remaining_witness :
    (mkTimer "bob" 10 1 "#c" 0).isPaused = false ∧
    ((((mkTimer "bob" 10 1 "#c" 0).pause 5000).1.resume (5000 + 7000)).1.getStatus
        (5000 + 7000)
      = (mkTimer "bob" 10 1 "#c" 0).getStatus 5000) :=
  ⟨rfl, pause_resume_preserves_remaining (mkTimer "bob" 10 1 "#c" 0) 5000 7000 rfl⟩

/-- Claim C3, counterexample: the match pattern does not validate
positivity of the duration.  The line `!0min` is accepted by the regex
with first capture group `0`, parses to `minutes = 0`, and the handler
creates a timer whose `totalMinutes` is `0`. -/
theorem zero_duration_start_accepted :
    timerMatch "!0min".data = some (['0'], none) ∧
    digitsToNat ['0'] = 0 ∧
    (onMessage ⟨[], false⟩ ⟨true, [], []⟩ "#c" ⟨some "m1", "bob", none⟩
        "!0min" false 1000).1.timers
      = [mkTimer "bob" 0 1 "#c" 1000] ∧
    (mkTimer "bob" 0 1 "#c" 1000).totalMinutes = 0 := by
  refine ⟨by decide, by decide, by decide, by decide⟩

/-- Claim C3 as amended: for every line accepted by the timer-start
pattern, the duration group is a nonempty digit string (hence a
nonnegative integer, but possibly `0`), and the effective update
interval — after the `|| 1` fallback of the handler — is at least `1`;
the pattern itself does not exclude a zero duration. -/
theorem accepted_start_has_positive_interval (msg d1 : List Char)
    (d2 : Option (List Char)) (h : timerMatch msg = some (d1, d2)) :
    d1 ≠ [] ∧ 1 ≤ effectiveInterval d2 := by
  constructor
  · unfold timerMatch at h
    split at h
    · rename_i rest
      by_cases he : (rest.takeWhile Char.isDigit).isEmpty
      · rw [if_pos he] at h
        exact absurd h (by simp)
      · rw [if_neg he] at h
        split at h
        · rename_i rest2 heq
          by_cases h3 : (rest2.dropWhile Char.isDigit).isEmpty
          · rw [if_pos h3] at h
            simp only [Option.some.injEq, Prod.mk.injEq] at h
            obtain ⟨hd1, hd2⟩ := h
            subst hd1
            simpa using he
          · rw [if_neg h3] at h
            exact absurd h (by simp)
        · exact absurd h (by simp)
    · exact absurd h (by simp)
  · cases d2 with
    | none => simp [effectiveInterval]
    | some ds =>
      simp only [effectiveInterval]
      by_cases h0 : digitsToNat ds == 0
      · simp [h0]
      · simp only [h0, Bool.false_eq_true, if_false]
        have : digitsToNat ds ≠ 0 := by simpa using h0
        omega

/-- Witness for the amended C3 at the accepted line `!5min0`. -/
theorem accepted_start_has_positive_interval_witness :
    timerMatch "!5min0".data = some (['5'], some ['0']) ∧
    (['5'] ≠ ([] : List Char) ∧ 1 ≤ effectiveInterval (some ['0'])) :=
  ⟨by decide,
   accepted_start_has_positive_interval "!5min0".data ['5'] (some ['0']) (by decide)⟩

/-- Claim C4, counterexample: a tick of a 2-minute timer at 90 s has
30 s remaining — strictly under one minute — yet the emitted progress
display is `1 minute`, not `30 seconds`: `Math.ceil(remaining / 60000)`
is already `>= 1` for every positive remaining, so the seconds branch is
never taken. -/
theorem sub_minute_update_displays_minutes_not_seconds :
    (Timer.tick (mkTimer "bob" 2 1 "#c" 0) 90000).2
      = TickResult.update (TimeDisplay.minutes 1 false) ∧
    ((2 * 60 * 1000 : Int) - (90000 - 0 - 0)) = 30000 ∧
    (0:Int) < 30000 ∧ (30000:Int) < 60000 ∧
    timeDisplay 30000 ≠ TimeDisplay.seconds 30 true := by
  refine ⟨by decide, by norm_num, by norm_num, by norm_num, by decide⟩

/-- Helper: the ceiling of a positive quantity divided by 60000 is at
least one. -/
lemma one_le_jsCeilDiv (r : Int) (h : 0 < r) : 1 ≤ jsCeilDiv r 60000 := by
  unfold jsCeilDiv
  rw [Int.le_ediv_iff_mul_le (by norm_num : (0:Int) < 60000)]
  omega

/-- Helper: for positive remaining time the display is always the
minutes branch. -/
lemma timeDisplay_pos (r : Int) (h : 0 < r) :
    timeDisplay r
      = TimeDisplay.minutes (jsCeilDiv r 60000) (jsCeilDiv r 60000 != 1) := by
  have := one_le_jsCeilDiv r h
  simp [timeDisplay, this]

/-- Claim C4 as amended: every progress notification emitted by `tick`
displays the remaining time in minutes rounded up (a value of at least
one minute, even when the remaining time is under one minute), with the
unit pluralized exactly when the value is not 1; the seconds branch of
the formatter is unreachable. -/
theorem tick_update_always_displays_minutes (t : Timer) (now : Int)
    (d : TimeDisplay) (h : (Timer.tick t now).2 = TickResult.update d) :
    ∃ n : Int, 1 ≤ n ∧ d = TimeDisplay.minutes n (n != 1) := by
  unfold Timer.tick at h
  by_cases hp : t.isPaused
  · simp [hp] at h
  · simp only [hp, if_false, Bool.false_eq_true] at h
    set rem := t.totalMinutes * 60 * 1000 - (now - t.startTime - t.totalPausedTime)
      with hrem
    by_cases hc : rem ≤ 0
    · simp [hc] at h
    · by_cases hu : t.intervalMinutes * 60 * 1000 - 500 ≤ now - t.lastUpdate
      · simp only [hc, if_false, hu, if_true] at h
        have hd : d = timeDisplay rem := by
          simpa using h.symm
        refine ⟨jsCeilDiv rem 60000, one_le_jsCeilDiv rem (by omega), ?_⟩
        rw [hd, timeDisplay_pos rem (by omega)]
      · simp [hc, hu] at h

/-- Witness for the amended C4: a concrete tick with 400 ms remaining
emits the minutes display `1 minute`. -/
theorem tick_update_always_displays_minutes_witness :
    (Timer.tick (mkTimer "alice" 1 1 "#d" 0) 59600).2
      = TickResult.update (TimeDisplay.minutes 1 false) ∧
    (∃ n : Int, 1 ≤ n ∧ TimeDisplay.minutes 1 false = TimeDisplay.minutes n (n != 1)) :=
  ⟨by decide,
   tick_update_always_displays_minutes (mkTimer "alice" 1 1 "#d" 0) 59600
     (TimeDisplay.minutes 1 false) (by decide)⟩

/-- Claim C5, counterexample: in the run attempt-then-connected-event,
the connected handler completes with the attempt count still at 1, not
0 — the handler never touches `connectionAttempts`. -/
theorem attempts_not_reset_by_connected_handler :
    connRun connInit [ConnEvent.attempt, ConnEvent.connectedEvt]
      = { isConnected := true, connectionAttempts := 1 } ∧
    (connRun connInit [ConnEvent.attempt, ConnEvent.connectedEvt]).connectionAttempts
      ≠ 0 := by
  refine ⟨by decide, by decide⟩

/-- Claim C5 as amended: the connected-event handler sets the connection
flag but leaves the attempt count unchanged; the counter is reset to 0
only inside the disconnect-triggered cooldown callback (which then
immediately issues a fresh guarded attempt). -/
theorem connected_handler_preserves_attempt_count (s : ConnState) :
    (connStep s ConnEvent.connectedEvt).connectionAttempts = s.connectionAttempts ∧
    (connStep s ConnEvent.connectedEvt).isConnected = true ∧
    connStep s ConnEvent.cooldown = connectAttempt { s with connectionAttempts := 0 } := by
  refine ⟨?_, ?_, rfl⟩ <;> by_cases h : s.isConnected <;> simp [connStep, h]

/-- Claim C6: the permission gate satisfies the decision matrix of the
spec — with an empty allow-list and mods allowed: broadcaster and
moderator authorized, plain viewer denied; with allow-list `[alice]` and
mods not allowed: `alice` authorized, moderator `bob` denied; and a
broadcaster is authorized under every configuration. -/
theorem hasPermission_decision_matrix :
    (hasPermission ⟨[], true⟩ ⟨none, "streamer", some ⟨true, false⟩⟩ = true) ∧
    (hasPermission ⟨[], true⟩ ⟨none, "modguy", some ⟨false, true⟩⟩ = true) ∧
    (hasPermission ⟨[], true⟩ ⟨none, "viewer", some ⟨false, false⟩⟩ = false) ∧
    (hasPermission ⟨["alice"], false⟩ ⟨none, "alice", some ⟨false, false⟩⟩ = true) ∧
    (hasPermission ⟨["alice"], false⟩ ⟨none, "bob", some ⟨false, true⟩⟩ = false) ∧
    (∀ (cfg : PermissionConfig) (mid : Option String) (uname : String) (m : Bool),
      hasPermission cfg ⟨mid, uname, some ⟨true, m⟩⟩ = true) := by
  refine ⟨by decide, by decide, by decide, by decide, by decide, ?_⟩
  intro cfg mid uname m
  simp [hasPermission]

/-- Claim C7: a fresh message id is dispatched and its immediate
redelivery is discarded (exactly one dispatch); the window never exceeds
100 identifiers; and at capacity the oldest-inserted id is the one
evicted (FIFO). -/
theorem dedup_second_delivery_discarded (s : List String) (mid : String)
    (hfresh : mid ∉ s) (hcap : s.length ≤ 100) :
    (processDedup s (some mid)).2 = true ∧
    (processDedup (processDedup s (some mid)).1 (some mid)).2 = false ∧
    ((processDedup s (some mid)).1).length ≤ 100 ∧
    (s.length = 100 → (processDedup s (some mid)).1 = s.tail ++ [mid]) := by
  have hmem : mid ∈ dedupInsert s mid := by
    unfold dedupInsert
    by_cases hl : (s ++ [mid]).length > 100
    · simp only [hl, if_true]
      cases s with
      | nil => simp at hl
      | cons a rest => simp
    · simp only [hl, if_false]
      simp
  refine ⟨?_, ?_, ?_, ?_⟩
  · simp [processDedup, hfresh]
  · simp [processDedup, hfresh, hmem]
  · simp only [processDedup]
    simp [hfresh]
    unfold dedupInsert
    by_cases hl : (s ++ [mid]).length > 100
    · simp only [hl, if_true]
      simp at hl ⊢
      omega
    · simp only [hl, if_false]
      simp at hl ⊢
      omega
  · intro h100
    simp only [processDedup]
    simp [hfresh]
    unfold dedupInsert
    have hl : (s ++ [mid]).length > 100 := by simp [h100]
    simp only [hl, if_true]
    cases s with
    | nil => simp at h100
    | cons a rest => simp

/-- Witness for C7 at a one-element window and a fresh id. -/
theorem dedup_second_delivery_discarded_witness :
    ("b" ∉ ["a"]) ∧ (["a"] : List String).length ≤ 100 ∧
    ((processDedup ["a"] (some "b")).2 = true ∧
     (processDedup (processDedup ["a"] (some "b")).1 (some "b")).2 = false ∧
     ((processDedup ["a"] (some "b")).1).length ≤ 100 ∧
     ((["a"] : List String).length = 100 →
       (processDedup ["a"] (some "b")).1 = (["a"] : List String).tail ++ ["b"])) :=
  ⟨by decide, by decide,
   dedup_second_delivery_discarded ["a"] "b" (by decide) (by decide)⟩

/-- Helper for C8: a single inbound message handled while disconnected
changes no timer, leaves the connection flag false, and produces no
output at all — in particular no registry operation is invoked and no
message is sent (the refusal path is silenced by `sendMessage`). -/
lemma onMessage_disconnected (cfg : PermissionConfig) (st : BotState)
    (channel : String) (tags : Tags) (message : String) (self : Bool) (now : Int)
    (h : st.isConnected = false) :
    (onMessage cfg st channel tags message self now).1.timers = st.timers ∧
    (onMessage cfg st channel tags message self now).1.isConnected = false ∧
    (onMessage cfg st channel tags message self now).2 = [] := by
  unfold onMessage
  cases htm : timerMatch message.data with
  | none =>
    simp only [htm]
    split
    · simp [h]
    · split
      · simp [h]
      · split
        · split
          · simp [h, sendMessage]
          · simp [h]
        · repeat' split <;> simp [h, sendMessage]
  | some g =>
    obtain ⟨d1, d2⟩ := g
    simp only [htm]
    split
    · simp [h]
    · split
      · simp [h]
      · split
        · split
          · simp [h, sendMessage]
          · simp [h]
        · simp [h]

/-- Claim C8: while `isConnected` is false, any sequence of inbound
chat messages is ignored entirely — the timer registry is unchanged, no
registry operation is invoked and nothing is sent (the output trace is
empty), and the handler itself never flips the connection flag, so this
persists until a connection event does. -/
theorem disconnected_ignores_all_commands (cfg : PermissionConfig)
    (st : BotState) (es : List MsgEvent) (h : st.isConnected = false) :
    (onMessages cfg st es).1.timers = st.timers ∧
    (onMessages cfg st es).1.isConnected = false ∧
    (onMessages cfg st es).2 = [] := by
  induction es generalizing st with
  | nil => exact ⟨rfl, h, rfl⟩
  | cons e es ih =>
    obtain ⟨h1, h2, h3⟩ :=
      onMessage_disconnected cfg st e.channel e.tags e.message e.self e.now h
    have recur := ih (onMessage cfg st e.channel e.tags e.message e.self e.now).1 h2
    simp only [onMessages]
    refine ⟨?_, ?_, ?_⟩
    · rw [recur.1, h1]
    · exact recur.2.1
    · rw [h3, recur.2.2]
      rfl

/-- Witness for C8: an authorized broadcaster sends `!10min` while
disconnected and nothing happens. -/
theorem disconnected_ignores_all_commands_witness :
    (BotState.mk false [] [mkTimer "bob" 5 1 "#c" 0]).isConnected = false ∧
    ((onMessages ⟨[], true⟩ (BotState.mk false [] [mkTimer "bob" 5 1 "#c" 0])
        [MsgEvent.mk "#c" ⟨some "m9", "bob", some ⟨true, false⟩⟩ "!10min" false 1000]).1.timers
      = (BotState.mk false [] [mkTimer "bob" 5 1 "#c" 0]).timers ∧
     (onMessages ⟨[], true⟩ (BotState.mk false [] [mkTimer "bob" 5 1 "#c" 0])
        [MsgEvent.mk "#c" ⟨some "m9", "bob", some ⟨true, false⟩⟩ "!10min" false 1000]).1.isConnected
      = false ∧
     (onMessages ⟨[], true⟩ (BotState.mk false [] [mkTimer "bob" 5 1 "#c" 0])
        [MsgEvent.mk "#c" ⟨some "m9", "bob", some ⟨true, false⟩⟩ "!10min" false 1000]).2
      = []) :=
  ⟨rfl,
   disconnected_ignores_all_commands ⟨[], true⟩
     (BotState.mk false [] [mkTimer "bob" 5 1 "#c" 0])
     [MsgEvent.mk "#c" ⟨some "m9", "bob", some ⟨true, false⟩⟩ "!10min" false 1000] rfl⟩

/-- Claim C9: for a paused timer the status query is independent of the
query instant — `getStatus` subtracts the in-progress pause duration, so
the displayed remaining time is frozen at its value as of the pause
instant, however often and whenever status is queried. -/
theorem paused_status_independent_of_query_instant (t : Timer) (n1 n2 : Int)
    (h : t.isPaused = true) :
    t.getStatus n1 = t.getStatus n2 := by
  simp only [Timer.getStatus, h]
  simp [TimerStatus.mk.injEq]
  congr 1
  ring

/-- Witness for C9: a concrete paused timer queried at two far-apart
instants reports the same status. -/
theorem paused_status_independent_of_query_instant_witness :
    (((mkTimer "bob" 10 1 "#c" 0).pause 5000).1).isPaused = true ∧
    ((((mkTimer "bob" 10 1 "#c" 0).pause 5000).1).getStatus 6000
      = (((mkTimer "bob" 10 1 "#c" 0).pause 5000).1).getStatus 999999) :=
  ⟨rfl,
   paused_status_independent_of_query_instant
     ((mkTimer "bob" 10 1 "#c" 0).pause 5000).1 6000 999999 rfl⟩

/-- Claim C10: an explicit update-interval group parsing to `0` is
treated exactly as an omitted group — both yield an effective interval
of `1` — and concretely the start command `!5min0` creates a timer whose
`intervalMinutes` is `1`. -/
theorem zero_interval_treated_as_omitted (ds : List Char)
    (h : digitsToNat ds = 0) :
    effectiveInterval (some ds) = effectiveInterval none ∧
    effectiveInterval (some ds) = 1 ∧
    (onMessage ⟨[], false⟩ ⟨true, [], []⟩ "#c" ⟨some "m2", "bob", none⟩
        "!5min0" false 1000).1.timers
      = [mkTimer "bob" 5 1 "#c" 1000] ∧
    (mkTimer "bob" 5 1 "#c" 1000).intervalMinutes = 1 := by
  refine ⟨?_, ?_, by decide, by decide⟩
  · simp [effectiveInterval, h]
  · simp [effectiveInterval, h]

/-- Witness for C10 at the digit group `0`. -/
theorem zero_interval_treated_as_omitted_witness :
    digitsToNat ['0'] = 0 ∧
    (effectiveInterval (some ['0']) = effectiveInterval none ∧
     effectiveInterval (some ['0']) = 1 ∧
     (onMessage ⟨[], false⟩ ⟨true, [], []⟩ "#c" ⟨some "m2", "bob", none⟩
         "!5min0" false 1000).1.timers
       = [mkTimer "bob" 5 1 "#c" 1000] ∧
     (mkTimer "bob" 5 1 "#c" 1000).intervalMinutes = 1) :=
  ⟨by decide, zero_interval_treated_as_omitted ['0'] (by decide)⟩

end TwitchBot
